import Mathlib

/-!
Shallow embedding of the bluetrax periodic Bluetooth scanner
(`bluetrax_scan.c`, `bluetrax_scan_unpack.c`, `bluetrax.c`, `bluetrax.h`).

Modelling conventions:
* C machine integers become `Nat` (bytes are `Nat`s below 256, with explicit
  `% 256` / `% 65536` where the C code truncates); the signed `int8_t` rssi
  field becomes `Int` with an explicit two's-complement byte codec.
* The output `FILE *` sink becomes an explicit list of emitted records; the
  embedding's sink always accepts writes (`fputc`/`fwrite`/transport failures
  are outside the scope of the claims modelled here).
* The `pselect`/`recvmsg` loop of `run_scan` is driven by an explicit finite
  trace of successful reads; exhausting the trace corresponds to the
  `request_stop_scan` shutdown flag being observed.
-/

namespace Bluetrax

/-- `EXIT_SUCCESS` from `stdlib.h`. -/
def EXIT_SUCCESS : Nat := 0

/-- `EXIT_FAILURE` from `stdlib.h`. -/
def EXIT_FAILURE : Nat := 1

/-- HCI event code `EVT_INQUIRY_COMPLETE` (bluetooth/hci.h). -/
def EVT_INQUIRY_COMPLETE : Nat := 0x01

/-- HCI event code `EVT_INQUIRY_RESULT` (bluetooth/hci.h). -/
def EVT_INQUIRY_RESULT : Nat := 0x02

/-- HCI event code `EVT_INQUIRY_RESULT_WITH_RSSI` (bluetooth/hci.h). -/
def EVT_INQUIRY_RESULT_WITH_RSSI : Nat := 0x22

/-- HCI packet type `HCI_EVENT_PKT` (bluetooth/hci.h). -/
def HCI_EVENT_PKT : Nat := 0x04

/-- `HCI_EVENT_HDR_SIZE` (bluetooth/hci.h): two bytes, `evt` and `plen`. -/
def HCI_EVENT_HDR_SIZE : Nat := 2

/-- `sizeof(inquiry_info)` (bluetooth/hci.h): bdaddr 6 + pscan_rep_mode 1 +
pscan_period_mode 1 + pscan_mode 1 + dev_class 3 + clock_offset 2 = 14 bytes. -/
def inquiry_info_size : Nat := 14

/-- `sizeof(inquiry_info_with_rssi)` (bluetooth/hci.h): bdaddr 6 +
pscan_rep_mode 1 + pscan_period_mode 1 + dev_class 3 + clock_offset 2 +
rssi 1 = 14 bytes. -/
def inquiry_info_with_rssi_size : Nat := 14

/-- `struct timeval` (16 bytes packed on the producing platform: two 64-bit
fields). Modelled with `Nat` fields; well-formed values are below `2^64`. -/
structure Timeval where
  tv_sec : Nat
  tv_usec : Nat
deriving DecidableEq

/-- `bdaddr_t` (bluetooth/bluetooth.h): a 6-byte device address. -/
structure bdaddr_t where
  b0 : Nat
  b1 : Nat
  b2 : Nat
  b3 : Nat
  b4 : Nat
  b5 : Nat
deriving DecidableEq

/-- The 3-byte `dev_class` field of an inquiry result. -/
structure dev_class_t where
  c0 : Nat
  c1 : Nat
  c2 : Nat
deriving DecidableEq

/-- `bluetrax_inquiry_complete_t` (bluetrax.h): packed record with a timestamp. -/
structure bluetrax_inquiry_complete_t where
  time : Timeval
deriving DecidableEq

/-- `bluetrax_inquiry_result_t` (bluetrax.h): packed record with a timestamp,
device address and 3-byte device class. -/
structure bluetrax_inquiry_result_t where
  time : Timeval
  bdaddr : bdaddr_t
  dev_class : dev_class_t
deriving DecidableEq

/-- `bluetrax_inquiry_result_with_rssi_t` (bluetrax.h): as
`bluetrax_inquiry_result_t` plus a signed rssi byte (`int8_t`). -/
structure bluetrax_inquiry_result_with_rssi_t where
  time : Timeval
  bdaddr : bdaddr_t
  dev_class : dev_class_t
  rssi : Int
deriving DecidableEq

/-- The tagged union of the three record variants written to the binary log
(the spec's `NormalizedRecord`). The tag byte written before each record is
the corresponding HCI event code. -/
inductive NormalizedRecord where
  | inquiry_complete (r : bluetrax_inquiry_complete_t)
  | inquiry_result (r : bluetrax_inquiry_result_t)
  | inquiry_result_with_rssi (r : bluetrax_inquiry_result_with_rssi_t)
deriving DecidableEq

/-- Little-endian byte encoding of a `Nat` into `k` bytes (the in-memory
layout of the packed 64-bit `timeval` fields on the producing platform). -/
def natToLE : Nat → Nat → List Nat
  | 0, _ => []
  | k + 1, n => n % 256 :: natToLE k (n / 256)

/-- Read a little-endian byte list back as a `Nat`. -/
def leToNat : List Nat → Nat
  | [] => 0
  | b :: bs => b + 256 * leToNat bs

/-- Read an `int8_t` out of a byte, as `fread` into the signed `rssi` field
does: values 128..255 represent negatives. -/
def int8_of_byte (b : Nat) : Int :=
  if b < 128 then (b : Int) else (b : Int) - 256

/-- Two's-complement byte holding a signed value, as storing into an
`int8_t` and writing the byte out does. -/
def byte_of_int8 (v : Int) : Nat :=
  (v % 256).toNat

/-- Byte layout of a packed `struct timeval`. -/
def encode_timeval (t : Timeval) : List Nat :=
  natToLE 8 t.tv_sec ++ natToLE 8 t.tv_usec

/-- Read a packed `struct timeval` back from bytes. -/
def decode_timeval (bytes : List Nat) : Timeval :=
  { tv_sec := leToNat (bytes.take 8), tv_usec := leToNat ((bytes.drop 8).take 8) }

/-- Byte layout of a `bdaddr_t`. -/
def encode_bdaddr (b : bdaddr_t) : List Nat :=
  [b.b0, b.b1, b.b2, b.b3, b.b4, b.b5]

/-- Read a `bdaddr_t` from the first 6 bytes of a byte list (as `bacpy` from
a buffer does). -/
def parse_bdaddr (bytes : List Nat) : bdaddr_t :=
  { b0 := bytes.getD 0 0, b1 := bytes.getD 1 0, b2 := bytes.getD 2 0
    b3 := bytes.getD 3 0, b4 := bytes.getD 4 0, b5 := bytes.getD 5 0 }

/-- Byte layout of a 3-byte device class. -/
def encode_dev_class (c : dev_class_t) : List Nat :=
  [c.c0, c.c1, c.c2]

/-- Read a 3-byte device class from the first 3 bytes of a byte list (as
`memcpy` of `dev_class` does). -/
def parse_dev_class (bytes : List Nat) : dev_class_t :=
  { c0 := bytes.getD 0 0, c1 := bytes.getD 1 0, c2 := bytes.getD 2 0 }

/-- The bytes a handler writes for one record: the tag byte (`fputc` of the
event code) followed by the packed struct (`fwrite`), per
`handle_inquiry_result`, `handle_inquiry_result_with_rssi` and
`write_inquiry_complete` in bluetrax_scan.c. -/
def encode_record : NormalizedRecord → List Nat
  | .inquiry_complete r => EVT_INQUIRY_COMPLETE :: encode_timeval r.time
  | .inquiry_result r =>
      EVT_INQUIRY_RESULT ::
        (encode_timeval r.time ++ encode_bdaddr r.bdaddr ++ encode_dev_class r.dev_class)
  | .inquiry_result_with_rssi r =>
      EVT_INQUIRY_RESULT_WITH_RSSI ::
        (encode_timeval r.time ++ encode_bdaddr r.bdaddr ++ encode_dev_class r.dev_class
          ++ [byte_of_int8 r.rssi])

/-- Byte image of a whole binary log: the records' encodings, concatenated. -/
def encode_log : List NormalizedRecord → List Nat
  | [] => []
  | r :: rs => encode_record r ++ encode_log rs

/-- Well-formedness of a timestamp: both packed 64-bit fields in range. -/
def Timeval.wf (t : Timeval) : Prop :=
  t.tv_sec < 2 ^ 64 ∧ t.tv_usec < 2 ^ 64

instance (t : Timeval) : Decidable t.wf := by
  unfold Timeval.wf; infer_instance

/-- Well-formedness of a device address: all six fields are bytes. -/
def bdaddr_t.wf (b : bdaddr_t) : Prop :=
  b.b0 < 256 ∧ b.b1 < 256 ∧ b.b2 < 256 ∧ b.b3 < 256 ∧ b.b4 < 256 ∧ b.b5 < 256

instance (b : bdaddr_t) : Decidable b.wf := by
  unfold bdaddr_t.wf; infer_instance

/-- Well-formedness of a device class: all three fields are bytes. -/
def dev_class_t.wf (c : dev_class_t) : Prop :=
  c.c0 < 256 ∧ c.c1 < 256 ∧ c.c2 < 256

instance (c : dev_class_t) : Decidable c.wf := by
  unfold dev_class_t.wf; infer_instance

/-- Well-formedness of a record: every field holds a value its C type can
hold (`rssi` is an `int8_t`). -/
def NormalizedRecord.wf : NormalizedRecord → Prop
  | .inquiry_complete r => r.time.wf
  | .inquiry_result r => r.time.wf ∧ r.bdaddr.wf ∧ r.dev_class.wf
  | .inquiry_result_with_rssi r =>
      r.time.wf ∧ r.bdaddr.wf ∧ r.dev_class.wf ∧ -128 ≤ r.rssi ∧ r.rssi < 128

instance (r : NormalizedRecord) : Decidable r.wf := by
  cases r <;> (unfold NormalizedRecord.wf; infer_instance)

/-- `hci_event_hdr` (bluetooth/hci.h): event code byte and payload length
byte. -/
structure hci_event_hdr where
  evt : Nat
  plen : Nat
deriving DecidableEq

/-- `handle_inquiry_result` (bluetrax_scan.c): given the receive time, the
event header and the payload bytes (`data`), fail if `plen` is 0 or does not
equal `num_rsp * sizeof(inquiry_info) + 1` where `num_rsp = data[0]`;
otherwise emit one `bluetrax_inquiry_result_t` record per item, copying
`bdaddr` (item offset 0) and `dev_class` (item offset 9) out of the payload
and stamping each record with the message's receive time. Returns the C
return code and the records written to `out_file`. -/
def handle_inquiry_result (time : Timeval) (hdr : hci_event_hdr)
    (data : List Nat) : Nat × List NormalizedRecord :=
  if hdr.plen = 0 then (EXIT_FAILURE, [])
  else
    let num_rsp := data.headD 0
    if hdr.plen ≠ num_rsp * inquiry_info_size + 1 then (EXIT_FAILURE, [])
    else
      (EXIT_SUCCESS, (List.range num_rsp).map fun i =>
        NormalizedRecord.inquiry_result
          { time := time
            bdaddr := parse_bdaddr (data.drop (1 + inquiry_info_size * i))
            dev_class := parse_dev_class (data.drop (1 + inquiry_info_size * i + 9)) })

/-- `handle_inquiry_result_with_rssi` (bluetrax_scan.c): as
`handle_inquiry_result` but with `inquiry_info_with_rssi` items, whose
`dev_class` sits at item offset 8 and whose signed `rssi` byte sits at item
offset 13. -/
def handle_inquiry_result_with_rssi (time : Timeval) (hdr : hci_event_hdr)
    (data : List Nat) : Nat × List NormalizedRecord :=
  if hdr.plen = 0 then (EXIT_FAILURE, [])
  else
    let num_rsp := data.headD 0
    if hdr.plen ≠ num_rsp * inquiry_info_with_rssi_size + 1 then (EXIT_FAILURE, [])
    else
      (EXIT_SUCCESS, (List.range num_rsp).map fun i =>
        NormalizedRecord.inquiry_result_with_rssi
          { time := time
            bdaddr := parse_bdaddr (data.drop (1 + inquiry_info_with_rssi_size * i))
            dev_class := parse_dev_class (data.drop (1 + inquiry_info_with_rssi_size * i + 8))
            rssi := int8_of_byte (data.getD (1 + inquiry_info_with_rssi_size * i + 13) 0) })

/-- `handle_inquiry_complete` (bluetrax_scan.c): fail if `plen ≠ 1`; map the
single status byte through the external BlueZ `bt_error` status-to-errno
table (passed in as `bt_error`; in BlueZ, status 0 maps to errno 0 and every
non-zero status maps to a non-zero errno) and fail on a non-zero errno;
otherwise write one `bluetrax_inquiry_complete_t` record carrying the
message time. -/
def handle_inquiry_complete (bt_error : Nat → Nat) (time : Timeval)
    (hdr : hci_event_hdr) (data : List Nat) : Nat × List NormalizedRecord :=
  if hdr.plen ≠ 1 then (EXIT_FAILURE, [])
  else if bt_error (data.headD 0) ≠ 0 then (EXIT_FAILURE, [])
  else (EXIT_SUCCESS, [NormalizedRecord.inquiry_complete { time := time }])

/-- The body `run_scan` executes for one complete HCI event message: set
`flush_after_this_message` (to 1 for `EVT_INQUIRY_COMPLETE`, else to the
`--flush` setting), dispatch on `hdr->evt` to the matching handler (unknown
events succeed with a warning), and call `fflush` only when the handler
succeeded and the flush flag is set. Returns the handler's return code, the
records written, and whether `fflush` ran. -/
def process_event (bt_error : Nat → Nat) (flush : Bool) (tstamp : Timeval)
    (hdr : hci_event_hdr) (data : List Nat) : Nat × List NormalizedRecord × Bool :=
  let flush_after_this_message : Bool :=
    if hdr.evt = EVT_INQUIRY_COMPLETE then true else flush
  let h : Nat × List NormalizedRecord :=
    if hdr.evt = EVT_INQUIRY_RESULT then
      handle_inquiry_result tstamp hdr data
    else if hdr.evt = EVT_INQUIRY_RESULT_WITH_RSSI then
      handle_inquiry_result_with_rssi tstamp hdr data
    else if hdr.evt = EVT_INQUIRY_COMPLETE then
      handle_inquiry_complete bt_error tstamp hdr data
    else (EXIT_SUCCESS, [])
  (h.1, h.2, if h.1 = EXIT_SUCCESS then flush_after_this_message else false)

/-- One successful `recvmsg` outcome inside `run_scan`: the ancillary
receive timestamp and the bytes read (`buf[0]` is the packet type byte,
`buf[1..2]` the event header, the rest the payload); `len` is `buf.length`. -/
structure raw_read where
  tstamp : Timeval
  buf : List Nat
deriving DecidableEq

/-- The `run_scan` select loop (bluetrax_scan.c), driven by the finite trace
of successful reads: a read of at most `HCI_EVENT_HDR_SIZE` bytes, a
non-`HCI_EVENT_PKT` first byte, or a length different from
`1 + HCI_EVENT_HDR_SIZE + plen` (a partial read) just continues the loop; a
complete event message is dispatched via `process_event`, and a handler
failure executes `break` — after which the function returns `EXIT_SUCCESS`
(the C code discards the failing `rc`). An exhausted trace corresponds to
`request_stop_scan` being observed, returning `EXIT_SUCCESS`. Returns the
exit status and all records written to `out_file`. -/
def run_scan (bt_error : Nat → Nat) (flush : Bool) :
    List raw_read → Nat × List NormalizedRecord
  | [] => (EXIT_SUCCESS, [])
  | r :: rest =>
    if HCI_EVENT_HDR_SIZE < r.buf.length then
      if r.buf.headD 0 = HCI_EVENT_PKT then
        let hdr : hci_event_hdr := { evt := r.buf.getD 1 0, plen := r.buf.getD 2 0 }
        if r.buf.length = 1 + HCI_EVENT_HDR_SIZE + hdr.plen then
          let step := process_event bt_error flush r.tstamp hdr (r.buf.drop 3)
          if step.1 ≠ EXIT_SUCCESS then
            (EXIT_SUCCESS, step.2.1)
          else
            let t := run_scan bt_error flush rest
            (t.1, step.2.1 ++ t.2)
        else run_scan bt_error flush rest
      else run_scan bt_error flush rest
    else run_scan bt_error flush rest

/-- The number of bytes `binary_to_text` (bluetrax_scan_unpack.c) `fread`s
after each tag byte: the size of the packed record struct the tag selects,
or `none` for an unsupported tag. -/
def tag_size (tag : Nat) : Option Nat :=
  if tag = EVT_INQUIRY_COMPLETE then some 16
  else if tag = EVT_INQUIRY_RESULT then some 25
  else if tag = EVT_INQUIRY_RESULT_WITH_RSSI then some 26
  else none

/-- Reconstruct the record the `fread` in `binary_to_text` fills from the
bytes following a tag (the packed struct layout read back field by field). -/
def decode_body (tag : Nat) (bytes : List Nat) : NormalizedRecord :=
  if tag = EVT_INQUIRY_RESULT then
    NormalizedRecord.inquiry_result
      { time := decode_timeval bytes
        bdaddr := parse_bdaddr (bytes.drop 16)
        dev_class := parse_dev_class (bytes.drop 22) }
  else if tag = EVT_INQUIRY_RESULT_WITH_RSSI then
    NormalizedRecord.inquiry_result_with_rssi
      { time := decode_timeval bytes
        bdaddr := parse_bdaddr (bytes.drop 16)
        dev_class := parse_dev_class (bytes.drop 22)
        rssi := int8_of_byte (bytes.getD 25 0) }
  else
    NormalizedRecord.inquiry_complete { time := decode_timeval bytes }

/-- `binary_to_text` (bluetrax_scan_unpack.c): repeatedly read a tag byte
and then exactly the record size that tag implies, printing one row per
record; an unsupported tag or a short `fread` calls `exit(EXIT_FAILURE)`.
Returns the records rendered as rows (in order) and `true` on a clean end
of input, `false` when the decoder exited with failure. -/
def binary_to_text : List Nat → List NormalizedRecord × Bool
  | [] => ([], true)
  | tag :: rest =>
    match tag_size tag with
    | none => ([], false)
    | some n =>
      if rest.length < n then ([], false)
      else
        let r := decode_body tag (rest.take n)
        let t := binary_to_text (rest.drop n)
        (r :: t.1, t.2)
termination_by bytes => bytes.length
decreasing_by
  simp only [List.length_drop, List.length_cons]
  omega

/-- The shared fall-through result of `bluetrax_get_minor_device_name`
(bluetrax.c): returned for any major/minor combination not covered by the
tables. -/
def unknown_minor : String := "Unknown (reserved) minor device class"

/-- The `cls_str` built by the peripheral arm (major 5) of
`bluetrax_get_minor_device_name` (bluetrax.c): bits 4-5 of minor select the
keyboard/pointing part, bits 0-3 the input-device part, joined with "/"
when both are present. -/
def peripheral_cls_str (minor : Nat) : String :=
  let base : String :=
    if minor &&& 48 = 16 then "Keyboard"
    else if minor &&& 48 = 32 then "Pointing device"
    else if minor &&& 48 = 48 then "Combo keyboard/pointing device"
    else ""
  let base : String :=
    if minor &&& 15 ≠ 0 ∧ 0 < base.length then base ++ "/" else base
  let suffix : String :=
    if minor &&& 15 = 0 then ""
    else if minor &&& 15 = 1 then "Joystick"
    else if minor &&& 15 = 2 then "Gamepad"
    else if minor &&& 15 = 3 then "Remote control"
    else if minor &&& 15 = 4 then "Sensing device"
    else if minor &&& 15 = 5 then "Digitizer tablet"
    else if minor &&& 15 = 6 then "Card reader"
    else "(reserved)"
  base ++ suffix

/-- The imaging arm (major 6) of `bluetrax_get_minor_device_name`
(bluetrax.c): sequential bit tests, falling through to the shared unknown
result. The peripheral arm (major 5) also falls through to this code when
its `cls_str` is empty (the C `case 5` block has no `break`). -/
def imaging_minor (minor : Nat) : String :=
  if minor &&& 4 ≠ 0 then "Display"
  else if minor &&& 8 ≠ 0 then "Camera"
  else if minor &&& 16 ≠ 0 then "Scanner"
  else if minor &&& 32 ≠ 0 then "Printer"
  else unknown_minor

/-- `bluetrax_get_minor_device_name` (bluetrax.c): the minor-device-class
name table, switching on the major class then on (functions of) the minor
class. -/
def bluetrax_get_minor_device_name (major minor : Nat) : String :=
  if major = 0 then ""
  else if major = 1 then
    if minor = 0 then "Uncategorized"
    else if minor = 1 then "Desktop workstation"
    else if minor = 2 then "Server"
    else if minor = 3 then "Laptop"
    else if minor = 4 then "Handheld"
    else if minor = 5 then "Palm"
    else if minor = 6 then "Wearable"
    else unknown_minor
  else if major = 2 then
    if minor = 0 then "Uncategorized"
    else if minor = 1 then "Cellular"
    else if minor = 2 then "Cordless"
    else if minor = 3 then "Smart phone"
    else if minor = 4 then "Wired modem or voice gateway"
    else if minor = 5 then "Common ISDN Access"
    else if minor = 6 then "Sim Card Reader"
    else unknown_minor
  else if major = 3 then
    if minor = 0 then "Uncategorized"
    else if minor / 8 = 0 then "Fully available"
    else if minor / 8 = 1 then "1-17% utilized"
    else if minor / 8 = 2 then "17-33% utilized"
    else if minor / 8 = 3 then "33-50% utilized"
    else if minor / 8 = 4 then "50-67% utilized"
    else if minor / 8 = 5 then "67-83% utilized"
    else if minor / 8 = 6 then "83-99% utilized"
    else if minor / 8 = 7 then "No service available"
    else unknown_minor
  else if major = 4 then
    if minor = 0 then "Uncategorized"
    else if minor = 1 then "Device conforms to the Headset profile"
    else if minor = 2 then "Hands-free"
    else if minor = 4 then "Microphone"
    else if minor = 5 then "Loudspeaker"
    else if minor = 6 then "Headphones"
    else if minor = 7 then "Portable Audio"
    else if minor = 8 then "Car Audio"
    else if minor = 9 then "Set-top box"
    else if minor = 10 then "HiFi Audio Device"
    else if minor = 11 then "VCR"
    else if minor = 12 then "Video Camera"
    else if minor = 13 then "Camcorder"
    else if minor = 14 then "Video Monitor"
    else if minor = 15 then "Video Display and Loudspeaker"
    else if minor = 16 then "Video Conferencing"
    else if minor = 18 then "Gaming/Toy"
    else unknown_minor
  else if major = 5 then
    if 0 < (peripheral_cls_str minor).length then peripheral_cls_str minor
    else imaging_minor minor
  else if major = 6 then
    imaging_minor minor
  else if major = 7 then
    if minor = 1 then "Wrist Watch"
    else if minor = 2 then "Pager"
    else if minor = 3 then "Jacket"
    else if minor = 4 then "Helmet"
    else if minor = 5 then "Glasses"
    else unknown_minor
  else if major = 8 then
    if minor = 1 then "Robot"
    else if minor = 2 then "Vehicle"
    else if minor = 3 then "Doll / Action Figure"
    else if minor = 4 then "Controller"
    else if minor = 5 then "Game"
    else unknown_minor
  else if major = 63 then ""
  else unknown_minor

/-- The `major_devices` table of `write_dev_class`
(bluetrax_scan_unpack.c). -/
def major_devices : List String :=
  ["Miscellaneous", "Computer", "Phone", "LAN Access",
   "Audio/Video", "Peripheral", "Imaging", "Uncategorized"]

/-- The major/minor string pair `write_dev_class` (bluetrax_scan_unpack.c)
prints for a device class: empty fields when `major & 0x1f` falls outside
the `major_devices` table, otherwise the table entry and the minor name for
the unmasked major byte. -/
def classify (major minor : Nat) : String × String :=
  if 8 ≤ major &&& 0x1f then ("", "")
  else (major_devices.getD (major &&& 0x1f) "",
        bluetrax_get_minor_device_name major minor)

/-- `periodic_inquiry_cp` (bluetooth/hci.h): the command parameters
`start_scan` sends; `max_period` and `min_period` are `uint16_t`, `length`
and `num_rsp` are `uint8_t`. -/
structure periodic_inquiry_cp where
  max_period : Nat
  min_period : Nat
  lap0 : Nat
  lap1 : Nat
  lap2 : Nat
  length : Nat
  num_rsp : Nat
deriving DecidableEq

/-- The command parameters `start_scan` (bluetrax_scan.c) builds for a given
`scan_length`: the GIAC access code, no response limit, and the session
timing `length = scan_length`, `min_period = length + 1`,
`max_period = min_period + 1`, with the C integer truncations of the
`uint8_t`/`uint16_t` stores made explicit. -/
def start_scan_params (scan_length : Nat) : periodic_inquiry_cp :=
  let length := scan_length % 256
  let min_period := (length + 1) % 65536
  let max_period := (min_period + 1) % 65536
  { max_period := max_period, min_period := min_period,
    lap0 := 0x33, lap1 := 0x8b, lap2 := 0x9e,
    length := length, num_rsp := 0x00 }

/-! Helper lemmas about the byte-level codec. -/

theorem natToLE_length (k : Nat) : ∀ n, (natToLE k n).length = k := by
  induction k with
  | zero => intro n; rfl
  | succ k ih => intro n; simp [natToLE, ih]

theorem leToNat_natToLE (k : Nat) : ∀ n, n < 256 ^ k → leToNat (natToLE k n) = n := by
  induction k with
  | zero =>
    intro n h
    simp only [pow_zero, Nat.lt_one_iff] at h
    simp [natToLE, leToNat, h]
  | succ k ih =>
    intro n h
    have hdiv : n / 256 < 256 ^ k := by
      rw [Nat.div_lt_iff_lt_mul (by norm_num)]
      calc n < 256 ^ (k + 1) := h
        _ = 256 ^ k * 256 := by rw [pow_succ]
    simp only [natToLE, leToNat, ih (n / 256) hdiv]
    omega

theorem encode_timeval_length (t : Timeval) : (encode_timeval t).length = 16 := by
  simp [encode_timeval, natToLE_length]

theorem decode_timeval_encode (t : Timeval) (h : t.wf) :
    decode_timeval (encode_timeval t) = t := by
  obtain ⟨hs, hu⟩ := h
  have h64 : (2 : Nat) ^ 64 = 256 ^ 8 := by norm_num
  simp only [decode_timeval, encode_timeval,
    List.take_left' (natToLE_length 8 t.tv_sec),
    List.drop_left' (natToLE_length 8 t.tv_sec)]
  rw [List.take_of_length_le (by simp [natToLE_length])]
  rw [leToNat_natToLE 8 t.tv_sec (h64 ▸ hs), leToNat_natToLE 8 t.tv_usec (h64 ▸ hu)]

theorem int8_of_byte_of_int8 (v : Int) (h1 : -128 ≤ v) (h2 : v < 128) :
    int8_of_byte (byte_of_int8 v) = v := by
  unfold int8_of_byte byte_of_int8
  split <;> omega

theorem getD_eq_headD_drop (l : List Nat) (n d : Nat) :
    l.getD n d = (l.drop n).headD d := by
  induction l generalizing n with
  | nil => simp [List.getD]
  | cons a t ih =>
    cases n with
    | zero => simp [List.getD]
    | succ m => simp [List.getD]

theorem decode_timeval_encode_append (t : Timeval) (h : t.wf) (rest : List Nat) :
    decode_timeval (encode_timeval t ++ rest) = t := by
  obtain ⟨hs, hu⟩ := h
  have h64 : (2 : Nat) ^ 64 = 256 ^ 8 := by norm_num
  have hls : (natToLE 8 t.tv_sec).length = 8 := natToLE_length 8 t.tv_sec
  have hlu : (natToLE 8 t.tv_usec).length = 8 := natToLE_length 8 t.tv_usec
  simp only [decode_timeval, encode_timeval, List.append_assoc,
    List.take_left' hls, List.drop_left' hls, List.take_left' hlu]
  rw [leToNat_natToLE 8 t.tv_sec (h64 ▸ hs), leToNat_natToLE 8 t.tv_usec (h64 ▸ hu)]

theorem parse_bdaddr_encode_append (b : bdaddr_t) (rest : List Nat) :
    parse_bdaddr (encode_bdaddr b ++ rest) = b := rfl

theorem parse_dev_class_encode_append (c : dev_class_t) (rest : List Nat) :
    parse_dev_class (encode_dev_class c ++ rest) = c := rfl

theorem tag_size_complete : tag_size EVT_INQUIRY_COMPLETE = some 16 := rfl

theorem tag_size_result : tag_size EVT_INQUIRY_RESULT = some 25 := rfl

theorem tag_size_rssi : tag_size EVT_INQUIRY_RESULT_WITH_RSSI = some 26 := rfl

theorem binary_to_text_nil : binary_to_text [] = ([], true) := by
  simp [binary_to_text]

theorem binary_to_text_cons (tag : Nat) (rest : List Nat) :
    binary_to_text (tag :: rest) =
      match tag_size tag with
      | none => ([], false)
      | some n =>
        if rest.length < n then ([], false)
        else
          (decode_body tag (rest.take n) :: (binary_to_text (rest.drop n)).1,
           (binary_to_text (rest.drop n)).2) := by
  simp only [binary_to_text]

theorem decode_body_complete (bytes : List Nat) :
    decode_body EVT_INQUIRY_COMPLETE bytes
      = NormalizedRecord.inquiry_complete { time := decode_timeval bytes } := rfl

theorem decode_body_result (bytes : List Nat) :
    decode_body EVT_INQUIRY_RESULT bytes
      = NormalizedRecord.inquiry_result
          { time := decode_timeval bytes
            bdaddr := parse_bdaddr (bytes.drop 16)
            dev_class := parse_dev_class (bytes.drop 22) } := rfl

theorem decode_body_rssi (bytes : List Nat) :
    decode_body EVT_INQUIRY_RESULT_WITH_RSSI bytes
      = NormalizedRecord.inquiry_result_with_rssi
          { time := decode_timeval bytes
            bdaddr := parse_bdaddr (bytes.drop 16)
            dev_class := parse_dev_class (bytes.drop 22)
            rssi := int8_of_byte (bytes.getD 25 0) } := rfl

theorem parse_dev_class_encode (c : dev_class_t) :
    parse_dev_class (encode_dev_class c) = c := rfl

/-- Decoding a well-formed record's encoding at the head of a byte stream
yields that record as the first row and continues with the rest of the
stream. -/
theorem binary_to_text_encode (r : NormalizedRecord) (h : r.wf) (bs : List Nat) :
    binary_to_text (encode_record r ++ bs)
      = (r :: (binary_to_text bs).1, (binary_to_text bs).2) := by
  cases r with
  | inquiry_complete c =>
    have hlen : (encode_timeval c.time).length = 16 := encode_timeval_length c.time
    simp only [encode_record, List.cons_append, binary_to_text_cons, tag_size_complete]
    rw [if_neg (by rw [List.length_append, hlen]; omega)]
    rw [List.take_left' hlen, List.drop_left' hlen, decode_body_complete]
    rw [decode_timeval_encode c.time h]
  | inquiry_result c =>
    obtain ⟨ht, hb, hd⟩ := h
    have hlen : (encode_timeval c.time ++ encode_bdaddr c.bdaddr
        ++ encode_dev_class c.dev_class).length = 25 := by
      simp [encode_timeval_length, encode_bdaddr, encode_dev_class]
    have hlen2 : (encode_timeval c.time ++ encode_bdaddr c.bdaddr).length = 22 := by
      simp [encode_timeval_length, encode_bdaddr]
    simp only [encode_record, List.cons_append, binary_to_text_cons, tag_size_result]
    rw [if_neg (by rw [List.length_append, hlen]; omega)]
    rw [List.take_left' hlen, List.drop_left' hlen, decode_body_result]
    have e1 : decode_timeval (encode_timeval c.time ++ encode_bdaddr c.bdaddr
        ++ encode_dev_class c.dev_class) = c.time := by
      rw [List.append_assoc]
      exact decode_timeval_encode_append c.time ht _
    have e2 : (encode_timeval c.time ++ encode_bdaddr c.bdaddr
        ++ encode_dev_class c.dev_class).drop 16
        = encode_bdaddr c.bdaddr ++ encode_dev_class c.dev_class := by
      rw [List.append_assoc]
      exact List.drop_left' (encode_timeval_length c.time)
    have e3 : (encode_timeval c.time ++ encode_bdaddr c.bdaddr
        ++ encode_dev_class c.dev_class).drop 22 = encode_dev_class c.dev_class :=
      List.drop_left' hlen2
    rw [e1, e2, e3, parse_bdaddr_encode_append, parse_dev_class_encode]
  | inquiry_result_with_rssi c =>
    obtain ⟨ht, hb, hd, hr1, hr2⟩ := h
    have hlen : (encode_timeval c.time ++ encode_bdaddr c.bdaddr
        ++ encode_dev_class c.dev_class ++ [byte_of_int8 c.rssi]).length = 26 := by
      simp [encode_timeval_length, encode_bdaddr, encode_dev_class]
    have hlen2 : (encode_timeval c.time ++ encode_bdaddr c.bdaddr).length = 22 := by
      simp [encode_timeval_length, encode_bdaddr]
    have hlen3 : (encode_timeval c.time ++ encode_bdaddr c.bdaddr
        ++ encode_dev_class c.dev_class).length = 25 := by
      simp [encode_timeval_length, encode_bdaddr, encode_dev_class]
    simp only [encode_record, List.cons_append, binary_to_text_cons, tag_size_rssi]
    rw [if_neg (by rw [List.length_append, hlen]; omega)]
    rw [List.take_left' hlen, List.drop_left' hlen, decode_body_rssi]
    have e1 : decode_timeval (encode_timeval c.time ++ encode_bdaddr c.bdaddr
        ++ encode_dev_class c.dev_class ++ [byte_of_int8 c.rssi]) = c.time := by
      rw [List.append_assoc, List.append_assoc]
      exact decode_timeval_encode_append c.time ht _
    have e2 : (encode_timeval c.time ++ encode_bdaddr c.bdaddr
        ++ encode_dev_class c.dev_class ++ [byte_of_int8 c.rssi]).drop 16
        = encode_bdaddr c.bdaddr ++ (encode_dev_class c.dev_class
            ++ [byte_of_int8 c.rssi]) := by
      rw [List.append_assoc, List.append_assoc]
      exact List.drop_left' (encode_timeval_length c.time)
    have e3 : (encode_timeval c.time ++ encode_bdaddr c.bdaddr
        ++ encode_dev_class c.dev_class ++ [byte_of_int8 c.rssi]).drop 22
        = encode_dev_class c.dev_class ++ [byte_of_int8 c.rssi] := by
      rw [show encode_timeval c.time ++ encode_bdaddr c.bdaddr
            ++ encode_dev_class c.dev_class ++ [byte_of_int8 c.rssi]
          = (encode_timeval c.time ++ encode_bdaddr c.bdaddr)
              ++ (encode_dev_class c.dev_class ++ [byte_of_int8 c.rssi]) by
        rw [List.append_assoc]]
      exact List.drop_left' hlen2
    have e4 : (encode_timeval c.time ++ encode_bdaddr c.bdaddr
        ++ encode_dev_class c.dev_class ++ [byte_of_int8 c.rssi]).getD 25 0
        = byte_of_int8 c.rssi := by
      rw [getD_eq_headD_drop, List.drop_left' hlen3]
      rfl
    rw [e1, e2, e3, e4, parse_bdaddr_encode_append, parse_dev_class_encode_append,
      int8_of_byte_of_int8 c.rssi hr1 hr2]

/-! Claim theorems. -/

/-- C4: for every record variant, decoding the tagged binary encoding of a
well-formed record via the text decoder yields exactly the original record
(and a clean end of stream): `decode(encode(r)) == r`. -/
theorem record_codec_roundtrip (r : NormalizedRecord) (h : r.wf) :
    binary_to_text (encode_record r) = ([r], true) := by
  have h0 := binary_to_text_encode r h []
  rw [List.append_nil] at h0
  rw [h0, binary_to_text_nil]

/-- Witness for C4: the round trip evaluated on concrete records of every
variant, with the boundary signal-strength values -127, 0 and +20. -/
theorem record_codec_roundtrip_witness :
    (NormalizedRecord.wf (.inquiry_complete ⟨⟨1320000000, 123456⟩⟩) ∧
      binary_to_text (encode_record (.inquiry_complete ⟨⟨1320000000, 123456⟩⟩))
        = ([.inquiry_complete ⟨⟨1320000000, 123456⟩⟩], true)) ∧
    (NormalizedRecord.wf
        (.inquiry_result ⟨⟨7, 8⟩, ⟨1, 2, 3, 4, 5, 6⟩, ⟨9, 1, 32⟩⟩) ∧
      binary_to_text (encode_record
          (.inquiry_result ⟨⟨7, 8⟩, ⟨1, 2, 3, 4, 5, 6⟩, ⟨9, 1, 32⟩⟩))
        = ([.inquiry_result ⟨⟨7, 8⟩, ⟨1, 2, 3, 4, 5, 6⟩, ⟨9, 1, 32⟩⟩], true)) ∧
    (NormalizedRecord.wf
        (.inquiry_result_with_rssi ⟨⟨7, 8⟩, ⟨1, 2, 3, 4, 5, 6⟩, ⟨9, 1, 32⟩, -127⟩) ∧
      binary_to_text (encode_record
          (.inquiry_result_with_rssi ⟨⟨7, 8⟩, ⟨1, 2, 3, 4, 5, 6⟩, ⟨9, 1, 32⟩, -127⟩))
        = ([.inquiry_result_with_rssi ⟨⟨7, 8⟩, ⟨1, 2, 3, 4, 5, 6⟩, ⟨9, 1, 32⟩, -127⟩],
            true)) ∧
    (NormalizedRecord.wf
        (.inquiry_result_with_rssi ⟨⟨7, 8⟩, ⟨1, 2, 3, 4, 5, 6⟩, ⟨9, 1, 32⟩, 0⟩) ∧
      binary_to_text (encode_record
          (.inquiry_result_with_rssi ⟨⟨7, 8⟩, ⟨1, 2, 3, 4, 5, 6⟩, ⟨9, 1, 32⟩, 0⟩))
        = ([.inquiry_result_with_rssi ⟨⟨7, 8⟩, ⟨1, 2, 3, 4, 5, 6⟩, ⟨9, 1, 32⟩, 0⟩],
            true)) ∧
    (NormalizedRecord.wf
        (.inquiry_result_with_rssi ⟨⟨7, 8⟩, ⟨1, 2, 3, 4, 5, 6⟩, ⟨9, 1, 32⟩, 20⟩) ∧
      binary_to_text (encode_record
          (.inquiry_result_with_rssi ⟨⟨7, 8⟩, ⟨1, 2, 3, 4, 5, 6⟩, ⟨9, 1, 32⟩, 20⟩))
        = ([.inquiry_result_with_rssi ⟨⟨7, 8⟩, ⟨1, 2, 3, 4, 5, 6⟩, ⟨9, 1, 32⟩, 20⟩],
            true)) :=
  ⟨⟨by decide, record_codec_roundtrip _ (by decide)⟩,
   ⟨by decide, record_codec_roundtrip _ (by decide)⟩,
   ⟨by decide, record_codec_roundtrip _ (by decide)⟩,
   ⟨by decide, record_codec_roundtrip _ (by decide)⟩,
   ⟨by decide, record_codec_roundtrip _ (by decide)⟩⟩

/-- C9: a binary log that ends mid-record — any well-formed encoded prefix
followed by a supported tag byte and fewer payload bytes than that tag's
record size — makes the text decoder fail (`exit(EXIT_FAILURE)`), emitting
only the rows of the complete prefix records and no partial row for the
truncated record. -/
theorem truncated_log_decode_fails (recs : List NormalizedRecord) (tag n : Nat)
    (tail : List Nat) (hwf : ∀ r ∈ recs, r.wf) (htag : tag_size tag = some n)
    (hshort : tail.length < n) :
    binary_to_text (encode_log recs ++ tag :: tail) = (recs, false) := by
  induction recs with
  | nil =>
    simp only [encode_log, List.nil_append, binary_to_text_cons, htag]
    rw [if_pos hshort]
  | cons r rs ih =>
    have hr : r.wf := hwf r (by simp)
    have hrs : ∀ x ∈ rs, x.wf := fun x hx => hwf x (by simp [hx])
    simp only [encode_log, List.append_assoc]
    rw [binary_to_text_encode r hr, ih hrs]

/-- Witness for C9: one complete cycle-complete record followed by a
discovery-result tag with no payload bytes at all. -/
theorem truncated_log_decode_fails_witness :
    (∀ r ∈ [NormalizedRecord.inquiry_complete ⟨⟨10, 20⟩⟩], r.wf) ∧
    tag_size EVT_INQUIRY_RESULT = some 25 ∧
    ([] : List Nat).length < 25 ∧
    binary_to_text (encode_log [NormalizedRecord.inquiry_complete ⟨⟨10, 20⟩⟩]
        ++ EVT_INQUIRY_RESULT :: [])
      = ([NormalizedRecord.inquiry_complete ⟨⟨10, 20⟩⟩], false) :=
  ⟨by decide, rfl, by decide,
   truncated_log_decode_fails _ _ _ _ (by decide) rfl (by decide)⟩

/-- C7: the classify examples from the category tables: `(3,0)` is
LAN Access/Uncategorized, `(3,9)` is LAN Access/1-17% utilized, `(5,0x11)`
is Peripheral/Keyboard/Joystick, and major 63 yields empty major and minor
fields. -/
theorem classify_table_examples :
    classify 3 0 = ("LAN Access", "Uncategorized") ∧
    classify 3 9 = ("LAN Access", "1-17% utilized") ∧
    classify 5 0x11 = ("Peripheral", "Keyboard/Joystick") ∧
    classify 63 0 = ("", "") :=
  ⟨rfl, rfl, rfl, rfl⟩

/-- C10: for a device class with major byte 7, the decoder's `major_devices`
table renders the major field as "Uncategorized", while
`bluetrax_get_minor_device_name` resolves the minor field from the wearable
table (7,1 is "Wrist Watch", ..., 7,5 is "Glasses") — the two tables
disagree about what major value 7 means. -/
theorem classify_major7_tables_disagree :
    (∀ minor : Nat, (classify 7 minor).1 = "Uncategorized") ∧
    classify 7 1 = ("Uncategorized", "Wrist Watch") ∧
    classify 7 2 = ("Uncategorized", "Pager") ∧
    classify 7 3 = ("Uncategorized", "Jacket") ∧
    classify 7 4 = ("Uncategorized", "Helmet") ∧
    classify 7 5 = ("Uncategorized", "Glasses") :=
  ⟨fun _ => rfl, rfl, rfl, rfl, rfl, rfl⟩

/-- C8: for every cycle length the CLI accepts (1 ≤ L ≤ 100), `start_scan`
derives `min_period = L + 1` and `max_period = L + 2`, so
`max_period > min_period > L`. -/
theorem start_scan_params_timing (L : Nat) (h1 : 1 ≤ L) (h2 : L ≤ 100) :
    (start_scan_params L).length = L ∧
    (start_scan_params L).min_period = L + 1 ∧
    (start_scan_params L).max_period = L + 2 ∧
    L < (start_scan_params L).min_period ∧
    (start_scan_params L).min_period < (start_scan_params L).max_period := by
  simp only [start_scan_params]
  refine ⟨by omega, by omega, by omega, by omega, by omega⟩

/-- Witness for C8: the default cycle length 8. -/
theorem start_scan_params_timing_witness :
    1 ≤ 8 ∧ 8 ≤ 100 ∧
    ((start_scan_params 8).length = 8 ∧
      (start_scan_params 8).min_period = 9 ∧
      (start_scan_params 8).max_period = 10 ∧
      8 < (start_scan_params 8).min_period ∧
      (start_scan_params 8).min_period < (start_scan_params 8).max_period) :=
  ⟨by decide, by decide, start_scan_params_timing 8 (by decide) (by decide)⟩

/-- C1 (code bug): a complete cycle-complete message whose status byte is
non-zero (here 5) makes the handler report `EXIT_FAILURE` and the loop
abort, yet `run_scan` returns `EXIT_SUCCESS`: the `break` on a handler
failure discards the failing return code, and the function falls through to
`return EXIT_SUCCESS`, so the malformed-message abort exits the process
with code 0. The `fun s => s` argument stands in for the external BlueZ
`bt_error` table, which maps status 5 to a non-zero errno. -/
theorem run_scan_success_despite_malformed_message :
    (handle_inquiry_complete (fun s => s) ⟨0, 0⟩
        ⟨EVT_INQUIRY_COMPLETE, 1⟩ [5]).1 = EXIT_FAILURE ∧
    run_scan (fun s => s) false
        [{ tstamp := ⟨0, 0⟩, buf := [HCI_EVENT_PKT, EVT_INQUIRY_COMPLETE, 1, 5] }]
      = (EXIT_SUCCESS, []) :=
  ⟨rfl, rfl⟩

/-- C2: a discovery-result (or with-signal) message whose payload length
equals `count * item_size + 1`, with `count = N` read from the first payload
byte, makes the handler succeed and emit exactly `N` records, the i-th
carrying the message's receive timestamp and the address and 3-byte device
class (plus, for the with-signal variant, the signed signal byte) read
verbatim from the i-th payload item. -/
theorem discovery_result_valid_payload (time : Timeval) (hdr : hci_event_hdr)
    (data : List Nat) (N : Nat) (hN : data.headD 0 = N) :
    (hdr.plen = N * inquiry_info_size + 1 →
      handle_inquiry_result time hdr data
        = (EXIT_SUCCESS, (List.range N).map fun i =>
            NormalizedRecord.inquiry_result
              { time := time
                bdaddr := parse_bdaddr (data.drop (1 + inquiry_info_size * i))
                dev_class :=
                  parse_dev_class (data.drop (1 + inquiry_info_size * i + 9)) }) ∧
      (handle_inquiry_result time hdr data).2.length = N) ∧
    (hdr.plen = N * inquiry_info_with_rssi_size + 1 →
      handle_inquiry_result_with_rssi time hdr data
        = (EXIT_SUCCESS, (List.range N).map fun i =>
            NormalizedRecord.inquiry_result_with_rssi
              { time := time
                bdaddr := parse_bdaddr (data.drop (1 + inquiry_info_with_rssi_size * i))
                dev_class :=
                  parse_dev_class (data.drop (1 + inquiry_info_with_rssi_size * i + 8))
                rssi := int8_of_byte
                  (data.getD (1 + inquiry_info_with_rssi_size * i + 13) 0) }) ∧
      (handle_inquiry_result_with_rssi time hdr data).2.length = N) := by
  constructor
  · intro hp
    have heq : handle_inquiry_result time hdr data
        = (EXIT_SUCCESS, (List.range N).map fun i =>
            NormalizedRecord.inquiry_result
              { time := time
                bdaddr := parse_bdaddr (data.drop (1 + inquiry_info_size * i))
                dev_class :=
                  parse_dev_class (data.drop (1 + inquiry_info_size * i + 9)) }) := by
      simp only [handle_inquiry_result]
      rw [hN, hp]
      simp
    exact ⟨heq, by rw [heq]; simp⟩
  · intro hp
    have heq : handle_inquiry_result_with_rssi time hdr data
        = (EXIT_SUCCESS, (List.range N).map fun i =>
            NormalizedRecord.inquiry_result_with_rssi
              { time := time
                bdaddr := parse_bdaddr (data.drop (1 + inquiry_info_with_rssi_size * i))
                dev_class :=
                  parse_dev_class (data.drop (1 + inquiry_info_with_rssi_size * i + 8))
                rssi := int8_of_byte
                  (data.getD (1 + inquiry_info_with_rssi_size * i + 13) 0) }) := by
      simp only [handle_inquiry_result_with_rssi]
      rw [hN, hp]
      simp
    exact ⟨heq, by rw [heq]; simp⟩

/-- Witness for C2: a with-rssi message with two items and a plain message
with one item, with the records spelled out. -/
theorem discovery_result_valid_payload_witness :
    ([2, 11, 12, 13, 14, 15, 16, 81, 82, 21, 22, 23, 91, 92, 200,
      31, 32, 33, 34, 35, 36, 83, 84, 41, 42, 43, 93, 94, 7] : List Nat).headD 0 = 2 ∧
    (29 : Nat) = 2 * inquiry_info_with_rssi_size + 1 ∧
    handle_inquiry_result_with_rssi ⟨3, 4⟩ ⟨EVT_INQUIRY_RESULT_WITH_RSSI, 29⟩
        [2, 11, 12, 13, 14, 15, 16, 81, 82, 21, 22, 23, 91, 92, 200,
         31, 32, 33, 34, 35, 36, 83, 84, 41, 42, 43, 93, 94, 7]
      = (EXIT_SUCCESS,
         [.inquiry_result_with_rssi ⟨⟨3, 4⟩, ⟨11, 12, 13, 14, 15, 16⟩, ⟨21, 22, 23⟩, -56⟩,
          .inquiry_result_with_rssi ⟨⟨3, 4⟩, ⟨31, 32, 33, 34, 35, 36⟩, ⟨41, 42, 43⟩, 7⟩]) ∧
    ([1, 11, 12, 13, 14, 15, 16, 81, 82, 83, 21, 22, 23, 91, 92] : List Nat).headD 0 = 1 ∧
    (15 : Nat) = 1 * inquiry_info_size + 1 ∧
    handle_inquiry_result ⟨3, 4⟩ ⟨EVT_INQUIRY_RESULT, 15⟩
        [1, 11, 12, 13, 14, 15, 16, 81, 82, 83, 21, 22, 23, 91, 92]
      = (EXIT_SUCCESS,
         [.inquiry_result ⟨⟨3, 4⟩, ⟨11, 12, 13, 14, 15, 16⟩, ⟨21, 22, 23⟩⟩]) := by
  refine ⟨rfl, by decide, ?_, rfl, by decide, ?_⟩
  · have h := ((discovery_result_valid_payload ⟨3, 4⟩ ⟨EVT_INQUIRY_RESULT_WITH_RSSI, 29⟩
        [2, 11, 12, 13, 14, 15, 16, 81, 82, 21, 22, 23, 91, 92, 200,
         31, 32, 33, 34, 35, 36, 83, 84, 41, 42, 43, 93, 94, 7] 2 rfl).2 (by decide)).1
    rw [h]
    decide
  · have h := ((discovery_result_valid_payload ⟨3, 4⟩ ⟨EVT_INQUIRY_RESULT, 15⟩
        [1, 11, 12, 13, 14, 15, 16, 81, 82, 83, 21, 22, 23, 91, 92] 1 rfl).1 (by decide)).1
    rw [h]
    decide

/-- One `run_scan` iteration on a complete event message at the head of the
trace: the loop dispatches it through `process_event`, breaking out of the
loop (and returning `EXIT_SUCCESS`) on a handler failure, and otherwise
appending the records and continuing with the rest of the trace. -/
theorem run_scan_cons_message (bt_error : Nat → Nat) (flush : Bool) (ts : Timeval)
    (evt plen : Nat) (data : List Nat) (rest : List raw_read)
    (hlen : data.length = plen) :
    run_scan bt_error flush
        ({ tstamp := ts, buf := HCI_EVENT_PKT :: evt :: plen :: data } :: rest)
      = (if (process_event bt_error flush ts ⟨evt, plen⟩ data).1 ≠ EXIT_SUCCESS then
          (EXIT_SUCCESS, (process_event bt_error flush ts ⟨evt, plen⟩ data).2.1)
        else
          ((run_scan bt_error flush rest).1,
            (process_event bt_error flush ts ⟨evt, plen⟩ data).2.1
              ++ (run_scan bt_error flush rest).2)) := by
  have g0 : (HCI_EVENT_PKT :: evt :: plen :: data).headD 0 = HCI_EVENT_PKT := rfl
  have g1 : (HCI_EVENT_PKT :: evt :: plen :: data).getD 1 0 = evt := rfl
  have g2 : (HCI_EVENT_PKT :: evt :: plen :: data).getD 2 0 = plen := rfl
  have gd : (HCI_EVENT_PKT :: evt :: plen :: data).drop 3 = data := rfl
  simp only [run_scan, g0, g1, g2, gd, if_true]
  rw [if_pos (by simp only [List.length_cons, HCI_EVENT_HDR_SIZE]; omega)]
  rw [if_pos (by simp only [List.length_cons, HCI_EVENT_HDR_SIZE, hlen]; omega)]

/-- C3: a discovery-result (or with-signal) message whose payload length
does not equal `count * item_size + 1` makes the handler report
`EXIT_FAILURE` and emit nothing, and `run_scan` aborts there: no record
from that message (or any later read) reaches the sink, and the rest of the
trace is never processed. -/
theorem discovery_result_bad_plen_aborts (bt_error : Nat → Nat) (flush : Bool)
    (ts time : Timeval) (hdr : hci_event_hdr) (data : List Nat)
    (rest : List raw_read)
    (hmis : hdr.plen ≠ data.headD 0 * inquiry_info_size + 1) :
    handle_inquiry_result time hdr data = (EXIT_FAILURE, []) ∧
    handle_inquiry_result_with_rssi time hdr data = (EXIT_FAILURE, []) ∧
    ((hdr.evt = EVT_INQUIRY_RESULT ∨ hdr.evt = EVT_INQUIRY_RESULT_WITH_RSSI) →
      data.length = hdr.plen →
      run_scan bt_error flush
          ({ tstamp := ts, buf := HCI_EVENT_PKT :: hdr.evt :: hdr.plen :: data } :: rest)
        = (EXIT_SUCCESS, []) ∧
      (run_scan bt_error flush
          ({ tstamp := ts, buf := HCI_EVENT_PKT :: hdr.evt :: hdr.plen :: data } :: rest)).2
        = []) := by
  have hmis2 : hdr.plen ≠ data.headD 0 * inquiry_info_with_rssi_size + 1 := by
    rw [show inquiry_info_with_rssi_size = inquiry_info_size from rfl]
    exact hmis
  have h1 : ∀ t : Timeval, handle_inquiry_result t hdr data = (EXIT_FAILURE, []) := by
    intro t
    by_cases hp : hdr.plen = 0
    · simp [handle_inquiry_result, hp]
    · simp only [handle_inquiry_result, hp, if_false]
      rw [if_pos hmis]
  have h2 : ∀ t : Timeval,
      handle_inquiry_result_with_rssi t hdr data = (EXIT_FAILURE, []) := by
    intro t
    by_cases hp : hdr.plen = 0
    · simp [handle_inquiry_result_with_rssi, hp]
    · simp only [handle_inquiry_result_with_rssi, hp, if_false]
      rw [if_pos hmis2]
  refine ⟨h1 time, h2 time, fun hevt hlen => ?_⟩
  have hpe : process_event bt_error flush ts hdr data = (EXIT_FAILURE, [], false) := by
    rcases hevt with hevt | hevt
    · simp only [process_event, hevt, h1 ts]
      norm_num [EVT_INQUIRY_RESULT, EVT_INQUIRY_COMPLETE, EVT_INQUIRY_RESULT_WITH_RSSI,
        EXIT_SUCCESS, EXIT_FAILURE]
    · simp only [process_event, hevt, h2 ts]
      norm_num [EVT_INQUIRY_RESULT, EVT_INQUIRY_COMPLETE, EVT_INQUIRY_RESULT_WITH_RSSI,
        EXIT_SUCCESS, EXIT_FAILURE]
  have hrun : run_scan bt_error flush
      ({ tstamp := ts, buf := HCI_EVENT_PKT :: hdr.evt :: hdr.plen :: data } :: rest)
      = (EXIT_SUCCESS, []) := by
    rw [run_scan_cons_message bt_error flush ts hdr.evt hdr.plen data rest hlen]
    rw [show ({ evt := hdr.evt, plen := hdr.plen } : hci_event_hdr) = hdr from rfl, hpe]
    rw [if_pos (by decide)]
  exact ⟨hrun, by rw [hrun]⟩

/-- Witness for C3: a discovery-result message declaring one item but
carrying a payload length of 10, followed by another (valid) read that is
never processed. -/
theorem discovery_result_bad_plen_aborts_witness :
    ((⟨EVT_INQUIRY_RESULT, 10⟩ : hci_event_hdr).plen
        ≠ ([1, 0, 0, 0, 0, 0, 0, 0, 0, 0] : List Nat).headD 0 * inquiry_info_size + 1) ∧
    handle_inquiry_result ⟨0, 0⟩ ⟨EVT_INQUIRY_RESULT, 10⟩
        [1, 0, 0, 0, 0, 0, 0, 0, 0, 0] = (EXIT_FAILURE, []) ∧
    run_scan (fun s => s) true
        [{ tstamp := ⟨0, 0⟩,
           buf := (HCI_EVENT_PKT :: EVT_INQUIRY_RESULT :: 10
             :: [1, 0, 0, 0, 0, 0, 0, 0, 0, 0] : List Nat) },
         { tstamp := ⟨0, 0⟩, buf := [HCI_EVENT_PKT, EVT_INQUIRY_COMPLETE, 1, 0] }]
      = (EXIT_SUCCESS, []) := by
  have h := discovery_result_bad_plen_aborts (fun s => s) true ⟨0, 0⟩ ⟨0, 0⟩
    ⟨EVT_INQUIRY_RESULT, 10⟩ [1, 0, 0, 0, 0, 0, 0, 0, 0, 0]
    [{ tstamp := ⟨0, 0⟩, buf := [HCI_EVENT_PKT, EVT_INQUIRY_COMPLETE, 1, 0] }]
    (by decide)
  exact ⟨by decide, h.1, (h.2.2 (Or.inl rfl) (by decide)).1⟩

/-- C5: for every processed message, a successfully handled cycle-complete
message always flushes the sink regardless of the `--flush` setting, and a
successfully handled discovery-result message flushes the sink exactly when
the `--flush` setting is enabled. -/
theorem flush_policy (bt_error : Nat → Nat) (flush : Bool) (tstamp : Timeval)
    (hdr : hci_event_hdr) (data : List Nat) :
    (hdr.evt = EVT_INQUIRY_COMPLETE →
      (process_event bt_error flush tstamp hdr data).1 = EXIT_SUCCESS →
      (process_event bt_error flush tstamp hdr data).2.2 = true) ∧
    (hdr.evt = EVT_INQUIRY_RESULT →
      (process_event bt_error flush tstamp hdr data).1 = EXIT_SUCCESS →
      (process_event bt_error flush tstamp hdr data).2.2 = flush) := by
  constructor
  · intro hevt hrc
    have hne1 : EVT_INQUIRY_COMPLETE ≠ EVT_INQUIRY_RESULT := by decide
    have hne2 : EVT_INQUIRY_COMPLETE ≠ EVT_INQUIRY_RESULT_WITH_RSSI := by decide
    simp only [process_event, hevt, if_pos rfl, if_neg hne1, if_neg hne2,
      if_true] at hrc ⊢
    rw [if_pos hrc]
  · intro hevt hrc
    have hne1 : EVT_INQUIRY_RESULT ≠ EVT_INQUIRY_COMPLETE := by decide
    simp only [process_event, hevt, if_pos rfl, if_neg hne1, if_true] at hrc ⊢
    rw [if_pos hrc]

/-- Witness for C5: a valid cycle-complete message flushes even with
`--flush` off, and a valid one-item discovery-result message does not flush
with `--flush` off. -/
theorem flush_policy_witness :
    ((⟨EVT_INQUIRY_COMPLETE, 1⟩ : hci_event_hdr).evt = EVT_INQUIRY_COMPLETE ∧
      (process_event (fun s => s) false ⟨0, 0⟩ ⟨EVT_INQUIRY_COMPLETE, 1⟩ [0]).1
        = EXIT_SUCCESS ∧
      (process_event (fun s => s) false ⟨0, 0⟩ ⟨EVT_INQUIRY_COMPLETE, 1⟩ [0]).2.2
        = true) ∧
    ((⟨EVT_INQUIRY_RESULT, 15⟩ : hci_event_hdr).evt = EVT_INQUIRY_RESULT ∧
      (process_event (fun s => s) false ⟨0, 0⟩ ⟨EVT_INQUIRY_RESULT, 15⟩
          [1, 11, 12, 13, 14, 15, 16, 81, 82, 83, 21, 22, 23, 91, 92]).1
        = EXIT_SUCCESS ∧
      (process_event (fun s => s) false ⟨0, 0⟩ ⟨EVT_INQUIRY_RESULT, 15⟩
          [1, 11, 12, 13, 14, 15, 16, 81, 82, 83, 21, 22, 23, 91, 92]).2.2
        = false) :=
  ⟨⟨rfl, by decide,
    (flush_policy (fun s => s) false ⟨0, 0⟩ ⟨EVT_INQUIRY_COMPLETE, 1⟩ [0]).1
      rfl (by decide)⟩,
   ⟨rfl, by decide,
    (flush_policy (fun s => s) false ⟨0, 0⟩ ⟨EVT_INQUIRY_RESULT, 15⟩
        [1, 11, 12, 13, 14, 15, 16, 81, 82, 83, 21, 22, 23, 91, 92]).2
      rfl (by decide)⟩⟩

/-- C6: for every cycle-complete message, given that the external `bt_error`
status-to-errno table is zero exactly on status zero: a payload length
other than 1 makes the handler fail; a non-zero status byte maps to a
non-zero error code and makes the handler fail with no record emitted; a
zero status byte emits exactly one cycle-complete record carrying the
message's timestamp. -/
theorem inquiry_complete_spec (bt_error : Nat → Nat)
    (hbt : ∀ s, bt_error s = 0 ↔ s = 0) (time : Timeval) (hdr : hci_event_hdr)
    (data : List Nat) :
    (hdr.plen ≠ 1 →
      handle_inquiry_complete bt_error time hdr data = (EXIT_FAILURE, [])) ∧
    (hdr.plen = 1 → data.headD 0 ≠ 0 →
      handle_inquiry_complete bt_error time hdr data = (EXIT_FAILURE, [])) ∧
    (hdr.plen = 1 → data.headD 0 = 0 →
      handle_inquiry_complete bt_error time hdr data
        = (EXIT_SUCCESS, [NormalizedRecord.inquiry_complete { time := time }])) := by
  refine ⟨fun h => ?_, fun h1 h2 => ?_, fun h1 h2 => ?_⟩
  · simp only [handle_inquiry_complete]
    rw [if_pos h]
  · have hb : bt_error (data.headD 0) ≠ 0 := fun h0 => h2 ((hbt _).mp h0)
    simp only [handle_inquiry_complete, h1]
    rw [if_neg (by simp), if_pos hb]
  · have hb : ¬bt_error (data.headD 0) ≠ 0 := by
      simp only [ne_eq, not_not]
      exact (hbt _).mpr h2
    simp only [handle_inquiry_complete, h1]
    rw [if_neg (by simp), if_neg hb]

/-- Witness for C6: with the identity standing in for `bt_error` (zero
exactly at zero), the three branches at concrete messages: a zero status
emits one record, status 7 fails, payload length 2 fails. -/
theorem inquiry_complete_spec_witness :
    (∀ s : Nat, (fun s => s) s = 0 ↔ s = 0) ∧
    handle_inquiry_complete (fun s => s) ⟨5, 6⟩ ⟨EVT_INQUIRY_COMPLETE, 1⟩ [0]
      = (EXIT_SUCCESS, [NormalizedRecord.inquiry_complete ⟨⟨5, 6⟩⟩]) ∧
    handle_inquiry_complete (fun s => s) ⟨5, 6⟩ ⟨EVT_INQUIRY_COMPLETE, 1⟩ [7]
      = (EXIT_FAILURE, []) ∧
    handle_inquiry_complete (fun s => s) ⟨5, 6⟩ ⟨EVT_INQUIRY_COMPLETE, 2⟩ [0, 0]
      = (EXIT_FAILURE, []) :=
  ⟨fun _ => Iff.rfl,
   (inquiry_complete_spec (fun s => s) (fun _ => Iff.rfl) ⟨5, 6⟩
       ⟨EVT_INQUIRY_COMPLETE, 1⟩ [0]).2.2 rfl rfl,
   (inquiry_complete_spec (fun s => s) (fun _ => Iff.rfl) ⟨5, 6⟩
       ⟨EVT_INQUIRY_COMPLETE, 1⟩ [7]).2.1 rfl (by decide),
   (inquiry_complete_spec (fun s => s) (fun _ => Iff.rfl) ⟨5, 6⟩
       ⟨EVT_INQUIRY_COMPLETE, 2⟩ [0, 0]).1 (by decide)⟩

end Bluetrax
